import Mathlib

/-!
Shallow embedding of the Gomoku agent in src/KAgent.py (class MyExampleAgent).

The board is the framework object game_state.board, a list of rows, each row a
list of one-character strings ("X", "O", "." for empty).  Cells are looked up
with Python indexing board[r][c]; every lookup performed by the agent is
guarded so that both indices are in range.  The framework also supplies
board_size, is_valid_move and get_legal_moves, which the agent treats as
opaque; they are fields of the game-state record here.

Mutation: _score_move temporarily writes into the live board and restores the
cell before returning, so its embedding threads the game state explicitly and
returns the final state together with the score.

The only fallible operation in the agent is the call seq.index inside
_find_threat_move, which raises ValueError when no empty cell is present; the
embedding returns Except Unit so that this error branch is explicit.
-/

/-- Cell contents: a one-character string; "." is the empty cell. -/
abbrev Cell := String

/-- The framework game state as seen by the agent: the board grid, its size,
the validity predicate is_valid_move and the list returned by
get_legal_moves. -/
structure GameState where
  board_size : Nat
  board : List (List Cell)
  valid : Int → Int → Bool
  legal_moves : List (Int × Int)

/-- Python board[r][c] for indices the agent has already bounds-checked. -/
def cellAt (board : List (List Cell)) (r c : Int) : Cell :=
  (board.getD r.toNat []).getD c.toNat ""

/-- Python board[r][c] = v (in-place write, modelled functionally). -/
def setCell (board : List (List Cell)) (r c : Int) (v : Cell) : List (List Cell) :=
  board.set r.toNat ((board.getD r.toNat []).set c.toNat v)

/-- MyExampleAgent._check_pattern: the window matches when it holds exactly
count_stones cells equal to symbol and exactly count_empty empty cells. -/
def check_pattern (seq : List Cell) (symbol : Cell) (count_stones count_empty : Nat) : Bool :=
  seq.count symbol == count_stones && seq.count "." == count_empty

/-- Python seq.index v ("." below): index of the first occurrence, none when
absent (where Python raises ValueError). -/
def idxDot (seq : List Cell) : Option Nat :=
  seq.findIdx? (fun x => x == ".")

/-- The four direction vectors scanned by _find_threat_move, in program
order. -/
def directions : List (Int × Int) := [(0, 1), (1, 0), (1, 1), (1, -1)]

/-- The enumeration order of the triple loop in _find_threat_move: row-major
over start cells, then the four directions. Entries are (r, c, dr, dc). -/
def scanEnum (size : Nat) : List (Int × Int × Int × Int) :=
  (List.range size).flatMap fun r =>
    (List.range size).flatMap fun c =>
      directions.map fun d => ((r : Int), (c : Int), d.1, d.2)

/-- The bounds guard of _find_threat_move: 0 <= end_r < size and
0 <= end_c < size for the window ending cell. -/
def windowFits (gs : GameState) (r c dr dc : Int) : Bool :=
  decide (0 ≤ r + dr * 4) && decide (r + dr * 4 < (gs.board_size : Int)) &&
  decide (0 ≤ c + dc * 4) && decide (c + dc * 4 < (gs.board_size : Int))

/-- The window sequence [board[r + dr * i][c + dc * i] for i in range 5]. -/
def windowSeq (gs : GameState) (r c dr dc : Int) : List Cell :=
  (List.range 5).map fun i => cellAt gs.board (r + dr * (i : Int)) (c + dc * (i : Int))

/-- A window both fits on the board and matches the (stones, empty) pattern. -/
def windowMatches (gs : GameState) (symbol : Cell) (sn en : Nat)
    (w : Int × Int × Int × Int) : Bool :=
  windowFits gs w.1 w.2.1 w.2.2.1 w.2.2.2 &&
  check_pattern (windowSeq gs w.1 w.2.1 w.2.2.1 w.2.2.2) symbol sn en

/-- The board position of the first empty cell of a window, when one exists. -/
def windowFirstEmpty (gs : GameState) (w : Int × Int × Int × Int) : Option (Int × Int) :=
  match idxDot (windowSeq gs w.1 w.2.1 w.2.2.1 w.2.2.2) with
  | some idx => some (w.1 + w.2.2.1 * (idx : Int), w.2.1 + w.2.2.2 * (idx : Int))
  | none => none

/-- The loop body of _find_threat_move for one window: ok (some m) is an early
return of move m, ok none continues the scan, error is the ValueError raised
by seq.index when the matched window has no empty cell. -/
def windowCheck (gs : GameState) (symbol : Cell) (sn en : Nat)
    (r c dr dc : Int) : Except Unit (Option (Int × Int)) :=
  if windowFits gs r c dr dc then
    if check_pattern (windowSeq gs r c dr dc) symbol sn en then
      match idxDot (windowSeq gs r c dr dc) with
      | some idx =>
        if gs.valid (r + dr * (idx : Int)) (c + dc * (idx : Int)) then
          Except.ok (some (r + dr * (idx : Int), c + dc * (idx : Int)))
        else Except.ok none
      | none => Except.error ()
    else Except.ok none
  else Except.ok none

/-- The scan loop of _find_threat_move over the remaining windows. -/
def findThreatGo (gs : GameState) (symbol : Cell) (sn en : Nat) :
    List (Int × Int × Int × Int) → Except Unit (Option (Int × Int))
  | [] => Except.ok none
  | w :: ws =>
    match windowCheck gs symbol sn en w.1 w.2.1 w.2.2.1 w.2.2.2 with
    | Except.error e => Except.error e
    | Except.ok (some m) => Except.ok (some m)
    | Except.ok none => findThreatGo gs symbol sn en ws

/-- MyExampleAgent._find_threat_move with the ValueError branch explicit. -/
def find_threat_moveE (gs : GameState) (symbol : Cell) (sn en : Nat) :
    Except Unit (Option (Int × Int)) :=
  findThreatGo gs symbol sn en (scanEnum gs.board_size)

/-- MyExampleAgent._find_threat_move as the agent uses it (the error branch is
proved unreachable for the parameters the agent passes; see the C10 theorem). -/
def find_threat_move (gs : GameState) (symbol : Cell) (sn en : Nat) : Option (Int × Int) :=
  match find_threat_moveE gs symbol sn en with
  | Except.ok m => m
  | Except.error _ => none

/-- center = size // 2 (Python floor division on the nonnegative board size). -/
def boardCenter (size : Nat) : Int := ((size / 2 : Nat) : Int)

/-- The centrality bonus of _score_move:
max 0 ((center - abs (r - center)) + (center - abs (c - center))). -/
def centrality (size : Nat) (r c : Int) : Int :=
  max 0 ((boardCenter size - |r - boardCenter size|) + (boardCenter size - |c - boardCenter size|))

/-- The eight neighbour offsets visited by the adjacency loop of _score_move
(dr in -1, 0, 1 then dc in -1, 0, 1, skipping dr = dc = 0). -/
def adjOffsets : List (Int × Int) :=
  [(-1, -1), (-1, 0), (-1, 1), (0, -1), (0, 1), (1, -1), (1, 0), (1, 1)]

/-- One neighbour test of the adjacency loop: the neighbour is on the board
and holds a stone of either symbol (board[nr][nc] in [player, rival]). -/
def adjHit (board : List (List Cell)) (size r c : Int) (p q : Cell)
    (d : Int × Int) : Bool :=
  let nr := r + d.1
  let nc := c + d.2
  decide (0 ≤ nr) && decide (nr < size) && decide (0 ≤ nc) && decide (nc < size) &&
  (cellAt board nr nc == p || cellAt board nr nc == q)

/-- MyExampleAgent._score_move.  The Python function mutates game_state.board
(writes the own stone at move, queries the four threat patterns, then writes
"." back), so the embedding threads the state and returns the score together
with the state as it is when the function returns. -/
def score_move (gs : GameState) (move : Int × Int) (p q : Cell) : Int × GameState :=
  let r := move.1
  let c := move.2
  let size : Int := (gs.board_size : Int)
  let score1 : Int := 0 + centrality gs.board_size r c
  let score2 := adjOffsets.foldl
    (fun s d => if adjHit gs.board size r c p q d then s + 2 else s) score1
  let gs1 : GameState := { gs with board := setCell gs.board r c p }
  let score3 := if (find_threat_move gs1 p 4 1).isSome then score2 + 50 else score2
  let score4 := if (find_threat_move gs1 q 4 1).isSome then score3 + 45 else score3
  let score5 := if (find_threat_move gs1 p 3 2).isSome then score4 + 20 else score4
  let score6 := if (find_threat_move gs1 q 3 2).isSome then score5 + 15 else score5
  let gs2 : GameState := { gs1 with board := setCell gs1.board r c "." }
  (score6, gs2)

/-- The score of _score_move written as the specification states it: the sum
of the centrality term, 2 per adjacent stone of either symbol, and the four
independent threat bonuses 50, 45, 20, 15 evaluated with the own stone placed
at the move. -/
def specScore (gs : GameState) (move : Int × Int) (p q : Cell) : Int :=
  max 0 ((boardCenter gs.board_size - |move.1 - boardCenter gs.board_size|) +
    (boardCenter gs.board_size - |move.2 - boardCenter gs.board_size|)) +
  2 * ((adjOffsets.countP fun d =>
    adjHit gs.board (gs.board_size : Int) move.1 move.2 p q d : Nat) : Int) +
  (if (find_threat_move { gs with board := setCell gs.board move.1 move.2 p } p 4 1).isSome
    then 50 else 0) +
  (if (find_threat_move { gs with board := setCell gs.board move.1 move.2 p } q 4 1).isSome
    then 45 else 0) +
  (if (find_threat_move { gs with board := setCell gs.board move.1 move.2 p } p 3 2).isSome
    then 20 else 0) +
  (if (find_threat_move { gs with board := setCell gs.board move.1 move.2 p } q 3 2).isSome
    then 15 else 0)

/-- The regex class \s of the pattern in get_move, at its ASCII fragment:
space, tab, newline, return, vertical tab, form feed.  The \s of re on str is
Unicode-aware, so the oracle statements below restrict to ASCII responses,
where this set is exact. -/
def isWsChar (ch : Char) : Bool :=
  ch == ' ' || ch == '\t' || ch == '\n' || ch == '\r' || ch == '\x0b' || ch == '\x0c'

/-- The regex class \d of the pattern in get_move, at its ASCII fragment
(see isWsChar for the ASCII restriction). -/
def isDigitChar (ch : Char) : Bool :=
  '0' ≤ ch && ch ≤ '9'

/-- Consume one expected character. -/
def expectChar (ch : Char) : List Char → Option (List Char)
  | [] => none
  | a :: rest => if a == ch then some rest else none

/-- Consume an expected literal character sequence. -/
def expectStr (s : List Char) (l : List Char) : Option (List Char) :=
  if s.isPrefixOf l then some (l.drop s.length) else none

/-- The numeric value of a digit list. -/
def natOfDigits (ds : List Char) : Nat :=
  ds.foldl (fun acc ch => acc * 10 + (ch.toNat - 48)) 0

/-- Consume a maximal nonempty digit run (the greedy \d+ of the pattern);
no value is produced here, because the program first matches the text and
only afterwards parses it with json.loads. -/
def takeDigits (l : List Char) : Option (List Char) :=
  if (l.takeWhile isDigitChar).isEmpty then none
  else some (l.drop (l.takeWhile isDigitChar).length)

/-- Match, at the head of l, the shape of the pattern searched for in
get_move: an opening brace, quoted row, a colon, digits, a comma, quoted col,
a colon, digits, a closing brace, with optional \s runs between tokens.
Returns the suffix remaining after the match; the matched span is the
consumed prefix.  No token of the pattern can begin with a \s or \d
character that a maximal preceding run would have consumed, so this
deterministic chain needs no backtracking and agrees with the regex. -/
def matchPatternAt (l : List Char) : Option (List Char) := do
  let l ← expectChar '{' l
  let l := l.dropWhile isWsChar
  let l ← expectStr ("\"row\"".data) l
  let l := l.dropWhile isWsChar
  let l ← expectChar ':' l
  let l := l.dropWhile isWsChar
  let l ← takeDigits l
  let l := l.dropWhile isWsChar
  let l ← expectChar ',' l
  let l := l.dropWhile isWsChar
  let l ← expectStr ("\"col\"".data) l
  let l := l.dropWhile isWsChar
  let l ← expectChar ':' l
  let l := l.dropWhile isWsChar
  let l ← takeDigits l
  let l := l.dropWhile isWsChar
  let l ← expectChar '}' l
  some l

/-- re.search over the response text: the match at the leftmost starting
position wins, so only the first match is ever considered.  Returns the
matched span, match.group 0. -/
def searchPattern : List Char → Option (List Char)
  | [] => none
  | a :: rest =>
    match matchPatternAt (a :: rest) with
    | some remaining =>
      some ((a :: rest).take ((a :: rest).length - remaining.length))
    | none => searchPattern rest

/-- The whitespace accepted by json.loads between JSON tokens: space, tab,
newline, return only.  The \x0b and \x0c characters matched by \s are not
JSON whitespace, so a span containing them fails to parse. -/
def isJsonWs (ch : Char) : Bool :=
  ch == ' ' || ch == '\t' || ch == '\n' || ch == '\r'

/-- A JSON integer numeral as json.loads reads it: a single 0, or a nonzero
digit followed by a maximal digit run.  json.loads rejects leading zeros, so
after reading the 0 of a span like 05 the leftover digit makes the following
delimiter check fail, exactly as the Python parser errors there. -/
def jsonNumber (l : List Char) : Option (Nat × List Char) :=
  match l with
  | [] => none
  | ch :: rest =>
    if ch == '0' then some (0, rest)
    else if (l.takeWhile isDigitChar).isEmpty then none
    else some (natOfDigits (l.takeWhile isDigitChar), l.drop (l.takeWhile isDigitChar).length)

/-- json.loads applied to the span matched by the pattern, followed by the
int conversions of get_move: parses the object grammar with JSON whitespace
and JSON numerals and requires the whole span consumed.  Returns none where
json.loads raises, notably on numerals with leading zeros and on \x0b or
\x0c whitespace. -/
def jsonLoadsPair (l : List Char) : Option (Nat × Nat) := do
  let l ← expectChar '{' l
  let l := l.dropWhile isJsonWs
  let l ← expectStr ("\"row\"".data) l
  let l := l.dropWhile isJsonWs
  let l ← expectChar ':' l
  let l := l.dropWhile isJsonWs
  let rd ← jsonNumber l
  let l := (rd.2).dropWhile isJsonWs
  let l ← expectChar ',' l
  let l := l.dropWhile isJsonWs
  let l ← expectStr ("\"col\"".data) l
  let l := l.dropWhile isJsonWs
  let l ← expectChar ':' l
  let l := l.dropWhile isJsonWs
  let cd ← jsonNumber l
  let l := (cd.2).dropWhile isJsonWs
  let l ← expectChar '}' l
  if l.isEmpty then some (rd.1, cd.1) else none

/-- The whole parsing step of get_move: re.search for the first match of the
pattern, then json.loads on the matched text.  A json.loads failure is
caught by the surrounding try and treated exactly like the absence of a
match: no usable answer. -/
def parseOracle (l : List Char) : Option (Nat × Nat) :=
  match searchPattern l with
  | some span => jsonLoadsPair span
  | none => none

/-- The scoring loop of get_move: scored_moves = [(m, _score_move m) for m in
legal_moves], threading the transient board mutation of each call. -/
def scoreMovesGo (p q : Cell) : List (Int × Int) → GameState →
    List ((Int × Int) × Int) × GameState
  | [], gs => ([], gs)
  | m :: ms, gs =>
    let sm := score_move gs m p q
    let rest := scoreMovesGo p q ms sm.2
    ((m, sm.1) :: rest.1, rest.2)

/-- scored_moves.sort(key score, reverse) is a stable descending sort;
mergeSort with this comparison keeps ties in enumeration order exactly as
Python list.sort does. -/
def sortScored (l : List ((Int × Int) × Int)) : List ((Int × Int) × Int) :=
  l.mergeSort fun a b => decide (b.2 ≤ a.2)

/-- top_moves = scored_moves[:3] after sorting by score descending. -/
def topMoves (gs : GameState) (p q : Cell) : List ((Int × Int) × Int) :=
  (sortScored (scoreMovesGo p q gs.legal_moves gs).1).take 3

/-- MyExampleAgent.get_move.  The llm response text is a parameter (the value
awaited from self.llm.complete); prompt construction, logging and the
annotation helper only build that request text and never affect the returned
move, so they are not modelled.  p is the agent symbol, q the rival symbol. -/
def get_move (gs : GameState) (p q : Cell) (oracle : String) : Option (Int × Int) :=
  match find_threat_move gs p 4 1 with
  | some m => some m
  | none =>
  match find_threat_move gs q 4 1 with
  | some m => some m
  | none =>
  match find_threat_move gs q 3 2 with
  | some m => some m
  | none =>
  if gs.legal_moves.isEmpty then none
  else
    let top := topMoves gs p q
    let chosen :=
      match parseOracle oracle.data with
      | some rc =>
        let cm : Int × Int := ((rc.1 : Int), (rc.2 : Int))
        if (top.map Prod.fst).contains cm then some cm else none
      | none => none
    match chosen with
    | some cm => some cm
    | none =>
      match top with
      | t :: _ => some t.1
      | [] => none

/-- A size x size board built from a cell function, row-major. -/
def mkBoard (size : Nat) (f : Nat → Nat → Cell) : List (List Cell) :=
  (List.range size).map fun r => (List.range size).map fun c => f r c

/-- The standard validity check of the framework for the concrete boards used
below: on the board and the target cell empty. -/
def stdValid (size : Nat) (board : List (List Cell)) (r c : Int) : Bool :=
  decide (0 ≤ r) && decide (r < (size : Int)) && decide (0 ≤ c) &&
  decide (c < (size : Int)) && (cellAt board r c == ".")

/-- The empty-board legal move list: every cell, row-major. -/
def allCells (size : Nat) : List (Int × Int) :=
  (List.range size).flatMap fun r =>
    (List.range size).map fun c => ((r : Int), (c : Int))

/-- The concrete scenario board of the specification: empty 15 x 15 with X at
(7,5), (7,6), (7,7), (7,8). -/
def boardC1 : List (List Cell) :=
  mkBoard 15 fun r c => if r = 7 ∧ (c = 5 ∨ c = 6 ∨ c = 7 ∨ c = 8) then "X" else "."

/-- Game state for the 15 x 15 concrete scenario. -/
def gsC1 : GameState :=
  { board_size := 15
    board := boardC1
    valid := stdValid 15 boardC1
    legal_moves := (allCells 15).filter fun m => stdValid 15 boardC1 m.1 m.2 }

/-- A 5 x 5 board where both players have an immediate (4,1) threat: X on row
0 columns 0..3, O on row 1 columns 0..3. -/
def boardC2 : List (List Cell) :=
  mkBoard 5 fun r c => if r = 0 ∧ c ≤ 3 then "X" else if r = 1 ∧ c ≤ 3 then "O" else "."

/-- Game state for the double-threat board. -/
def gsC2 : GameState :=
  { board_size := 5
    board := boardC2
    valid := stdValid 5 boardC2
    legal_moves := (allCells 5).filter fun m => stdValid 5 boardC2 m.1 m.2 }

/-- An empty 5 x 5 board: no threats anywhere, every cell legal. -/
def boardC6 : List (List Cell) :=
  mkBoard 5 fun _ _ => "."

/-- Game state for the empty 5 x 5 board. -/
def gsC6 : GameState :=
  { board_size := 5
    board := boardC6
    valid := stdValid 5 boardC6
    legal_moves := (allCells 5).filter fun m => stdValid 5 boardC6 m.1 m.2 }

/-- A single-cell board with no legal moves left. -/
def gsC7 : GameState :=
  { board_size := 1
    board := [["X"]]
    valid := stdValid 1 [["X"]]
    legal_moves := [] }

/-- A 3 x 3 board with a single O stone at (1,1). -/
def boardC8 : List (List Cell) :=
  mkBoard 3 fun r c => if r = 1 ∧ c = 1 then "O" else "."

/-- Game state for the occupied-cell scoring scenario. -/
def gsC8 : GameState :=
  { board_size := 3
    board := boardC8
    valid := stdValid 3 boardC8
    legal_moves := (allCells 3).filter fun m => stdValid 3 boardC8 m.1 m.2 }

/-! ### Helper lemmas -/

theorem list_set_getD_self {α : Type} (l : List α) (n : Nat) (d : α) (h : n < l.length) :
    l.set n (l.getD n d) = l := by
  induction l generalizing n with
  | nil => simp at h
  | cons x xs ih =>
    cases n with
    | zero => simp
    | succ k =>
      have := ih k (by simpa using h)
      simpa [List.getD] using this

theorem list_getD_set_self {α : Type} (l : List α) (n : Nat) (a d : α) (h : n < l.length) :
    (l.set n a).getD n d = a := by
  induction l generalizing n with
  | nil => simp at h
  | cons x xs ih =>
    cases n with
    | zero => simp
    | succ k => simpa using ih k (by simpa using h)

theorem cellAt_setCell_self (board : List (List Cell)) (r c : Int) (v : Cell)
    (hr : r.toNat < board.length) (hc : c.toNat < (board.getD r.toNat []).length) :
    cellAt (setCell board r c v) r c = v := by
  unfold cellAt setCell
  rw [list_getD_set_self _ _ _ _ hr, list_getD_set_self _ _ _ _ hc]

theorem setCell_restore (board : List (List Cell)) (r c : Int) (p : Cell)
    (hr : r.toNat < board.length)
    (hc : c.toNat < (board.getD r.toNat []).length)
    (hempty : cellAt board r c = ".") :
    setCell (setCell board r c p) r c "." = board := by
  unfold cellAt at hempty
  unfold setCell
  rw [list_getD_set_self _ _ _ _ hr, List.set_set, List.set_set, ← hempty,
    list_set_getD_self _ _ _ hc, list_set_getD_self _ _ _ hr]

theorem foldl_if_two (P : Int × Int → Bool) (l : List (Int × Int)) (a : Int) :
    l.foldl (fun s d => if P d then s + 2 else s) a = a + 2 * ((l.countP P : Nat) : Int) := by
  induction l generalizing a with
  | nil => simp
  | cons x xs ih =>
    by_cases h : P x
    · simp only [List.foldl_cons, List.countP_cons, h, if_true, ih]
      push_cast
      ring
    · simp only [List.foldl_cons, List.countP_cons, h, if_false, ih]
      push_cast
      ring

theorem check_pattern_count_empty (seq : List Cell) (symbol : Cell) (sn en : Nat)
    (h : check_pattern seq symbol sn en = true) : seq.count "." = en := by
  unfold check_pattern at h
  simp only [Bool.and_eq_true, beq_iff_eq] at h
  exact h.2

theorem idxDot_isSome_of_count (seq : List Cell) (en : Nat)
    (h : seq.count "." = en) (hen : 1 ≤ en) : (idxDot seq).isSome = true := by
  have hmem : "." ∈ seq := List.one_le_count_iff.mp (h ▸ hen)
  unfold idxDot
  rw [List.findIdx?_isSome, List.any_eq_true]
  exact ⟨".", hmem, by simp⟩

theorem windowCheck_valid_of_ok_some (gs : GameState) (symbol : Cell) (sn en : Nat)
    (r c dr dc : Int) (m : Int × Int)
    (h : windowCheck gs symbol sn en r c dr dc = Except.ok (some m)) :
    gs.valid m.1 m.2 = true := by
  unfold windowCheck at h
  split at h
  · split at h
    · split at h
      · split at h
        · simp only [Except.ok.injEq, Option.some.injEq] at h
          subst h
          assumption
        · simp at h
      · simp at h
    · simp at h
  · simp at h

theorem windowCheck_none_of_not_matches (gs : GameState) (symbol : Cell) (sn en : Nat)
    (w : Int × Int × Int × Int)
    (h : windowMatches gs symbol sn en w = false) :
    windowCheck gs symbol sn en w.1 w.2.1 w.2.2.1 w.2.2.2 = Except.ok none := by
  unfold windowMatches at h
  rw [Bool.and_eq_false_iff] at h
  unfold windowCheck
  split
  · next hfit =>
    split
    · next hpat =>
      rcases h with h | h
      · rw [hfit] at h
        cases h
      · rw [hpat] at h
        cases h
    · rfl
  · rfl

theorem windowCheck_ok_some_of_first_empty (gs : GameState) (symbol : Cell) (sn en : Nat)
    (w : Int × Int × Int × Int) (m : Int × Int)
    (hm : windowMatches gs symbol sn en w = true)
    (hfe : windowFirstEmpty gs w = some m)
    (hv : gs.valid m.1 m.2 = true) :
    windowCheck gs symbol sn en w.1 w.2.1 w.2.2.1 w.2.2.2 = Except.ok (some m) := by
  unfold windowMatches at hm
  rw [Bool.and_eq_true] at hm
  unfold windowFirstEmpty at hfe
  unfold windowCheck
  rw [if_pos hm.1, if_pos hm.2]
  cases hidx : idxDot (windowSeq gs w.1 w.2.1 w.2.2.1 w.2.2.2) with
  | none => rw [hidx] at hfe; cases hfe
  | some idx =>
    rw [hidx] at hfe
    simp only [Option.some.injEq] at hfe
    subst hfe
    simp only []
    rw [if_pos hv]

theorem windowCheck_ne_error (gs : GameState) (symbol : Cell) (sn en : Nat)
    (r c dr dc : Int) (hen : 1 ≤ en) :
    windowCheck gs symbol sn en r c dr dc ≠ Except.error () := by
  unfold windowCheck
  split
  · split
    · next hpat =>
      cases hidx : idxDot (windowSeq gs r c dr dc) with
      | none =>
        have hs := idxDot_isSome_of_count (windowSeq gs r c dr dc) en
          (check_pattern_count_empty _ _ _ _ hpat) hen
        rw [hidx] at hs
        cases hs
      | some idx =>
        cases hval : gs.valid (r + dr * (idx : Int)) (c + dc * (idx : Int)) <;>
          simp [hval]
    · simp
  · simp

theorem findThreatGo_append_none (gs : GameState) (symbol : Cell) (sn en : Nat)
    (L1 L2 : List (Int × Int × Int × Int))
    (h : ∀ w ∈ L1, windowCheck gs symbol sn en w.1 w.2.1 w.2.2.1 w.2.2.2 = Except.ok none) :
    findThreatGo gs symbol sn en (L1 ++ L2) = findThreatGo gs symbol sn en L2 := by
  induction L1 with
  | nil => rfl
  | cons w ws ih =>
    have hw := h w (List.mem_cons_self w ws)
    simp only [List.cons_append, findThreatGo, hw]
    exact ih fun x hx => h x (List.mem_cons_of_mem w hx)

theorem findThreatGo_valid (gs : GameState) (symbol : Cell) (sn en : Nat)
    (l : List (Int × Int × Int × Int)) (m : Int × Int)
    (h : findThreatGo gs symbol sn en l = Except.ok (some m)) :
    gs.valid m.1 m.2 = true := by
  induction l with
  | nil => simp [findThreatGo] at h
  | cons w ws ih =>
    simp only [findThreatGo] at h
    cases hc : windowCheck gs symbol sn en w.1 w.2.1 w.2.2.1 w.2.2.2 with
    | error e =>
      rw [hc] at h
      simp at h
    | ok o =>
      cases o with
      | some m2 =>
        rw [hc] at h
        simp only [Except.ok.injEq, Option.some.injEq] at h
        subst h
        exact windowCheck_valid_of_ok_some gs symbol sn en w.1 w.2.1 w.2.2.1 w.2.2.2 m2 hc
      | none =>
        rw [hc] at h
        exact ih h

theorem findThreatGo_ne_error (gs : GameState) (symbol : Cell) (sn en : Nat)
    (hen : 1 ≤ en) (l : List (Int × Int × Int × Int)) :
    findThreatGo gs symbol sn en l ≠ Except.error () := by
  induction l with
  | nil => simp [findThreatGo]
  | cons w ws ih =>
    simp only [findThreatGo]
    cases hc : windowCheck gs symbol sn en w.1 w.2.1 w.2.2.1 w.2.2.2 with
    | error e =>
      cases e
      exact absurd hc (windowCheck_ne_error gs symbol sn en w.1 w.2.1 w.2.2.1 w.2.2.2 hen)
    | ok o =>
      cases o with
      | some m2 => simp
      | none => exact ih

theorem scoreMovesGo_length (p q : Cell) (l : List (Int × Int)) (gs : GameState) :
    ((scoreMovesGo p q l gs).1).length = l.length := by
  induction l generalizing gs with
  | nil => rfl
  | cons m ms ih => simp [scoreMovesGo, ih]

theorem topMoves_ne_nil (gs : GameState) (p q : Cell) (hl : gs.legal_moves ≠ []) :
    topMoves gs p q ≠ [] := by
  unfold topMoves
  intro h
  rw [List.take_eq_nil_iff] at h
  rcases h with h | h
  · cases h
  · have hlen := congrArg List.length h
    unfold sortScored at hlen
    rw [List.length_mergeSort, scoreMovesGo_length] at hlen
    exact hl (List.length_eq_zero.mp hlen)

/-! ### Claim theorems -/

/-- Claim C1: whenever some 5-cell window along one of the four scanned axes
contains exactly 4 stones of the symbol and exactly 1 empty cell, and w is
the first such matching window in the row-major, direction-ordered
enumeration, _find_threat_move with parameters (4, 1) returns the first empty
cell of w, provided that cell passes the validity check. -/
theorem threat_detects_first_matching_window (gs : GameState) (sym : Cell)
    (L1 L2 : List (Int × Int × Int × Int)) (w : Int × Int × Int × Int) (m : Int × Int)
    (hscan : scanEnum gs.board_size = L1 ++ w :: L2)
    (hfirst : ∀ x ∈ L1, windowMatches gs sym 4 1 x = false)
    (hw : windowMatches gs sym 4 1 w = true)
    (hfe : windowFirstEmpty gs w = some m)
    (hv : gs.valid m.1 m.2 = true) :
    find_threat_move gs sym 4 1 = some m := by
  unfold find_threat_move find_threat_moveE
  rw [hscan, findThreatGo_append_none gs sym 4 1 L1 (w :: L2)
    (fun x hx => windowCheck_none_of_not_matches gs sym 4 1 x (hfirst x hx))]
  simp only [findThreatGo]
  rw [windowCheck_ok_some_of_first_empty gs sym 4 1 w m hw hfe hv]

set_option maxRecDepth 40000 in
set_option maxHeartbeats 2000000 in
/-- Witness for C1: the concrete scenario of the specification, an empty
15 x 15 board with X at (7,5), (7,6), (7,7), (7,8); the first matching window
is the horizontal one starting at (7,4), whose empty cell is (7,4). -/
theorem threat_detects_first_matching_window_witness :
    find_threat_move gsC1 "X" 4 1 = some (7, 4) :=
  threat_detects_first_matching_window gsC1 "X"
    ((scanEnum 15).take 436) ((scanEnum 15).drop 437) (7, 4, 0, 1) (7, 4)
    (by decide) (by decide) (by decide) (by decide) (by decide)

/-- Claim C2: whenever _find_threat_move finds a (4, 1) completing move for
the agent, get_move returns exactly that move, regardless of the board, the
rival symbol and the oracle response; in particular the own win strictly
precedes the block, the open-three block and the scoring stage. -/
theorem get_move_plays_own_win (gs : GameState) (p q : Cell) (oracle : String)
    (m : Int × Int) (h : find_threat_move gs p 4 1 = some m) :
    get_move gs p q oracle = some m := by
  unfold get_move
  rw [h]

/-- Witness for C2: a 5 x 5 board where X and O each have an immediate
completing move; get_move plays the X win (0, 4), not the block (1, 4). -/
theorem get_move_plays_own_win_witness :
    find_threat_move gsC2 "O" 4 1 = some (1, 4) ∧
    get_move gsC2 "X" "O" "" = some (0, 4) :=
  ⟨by decide, get_move_plays_own_win gsC2 "X" "O" "" (0, 4) (by decide)⟩

/-- Claim C3: any position returned by _find_threat_move passes the
is_valid_move check of the game state; matched windows whose empty cell fails
the check are skipped, and with no remaining window the result is none. -/
theorem find_threat_returns_only_valid (gs : GameState) (sym : Cell)
    (sn en : Nat) (m : Int × Int)
    (h : find_threat_move gs sym sn en = some m) :
    gs.valid m.1 m.2 = true := by
  unfold find_threat_move at h
  cases hE : find_threat_moveE gs sym sn en with
  | ok o =>
    rw [hE] at h
    simp only [] at h
    subst h
    exact findThreatGo_valid gs sym sn en (scanEnum gs.board_size) m hE
  | error e =>
    rw [hE] at h
    simp at h

/-- Witness for C3: on the double-threat board the move found for O is (1, 4)
and is indeed valid. -/
theorem find_threat_returns_only_valid_witness :
    find_threat_move gsC2 "O" 4 1 = some (1, 4) ∧ gsC2.valid 1 4 = true :=
  ⟨by decide, find_threat_returns_only_valid gsC2 "O" 4 1 (1, 4) (by decide)⟩

/-- Claim C7: when none of the three threat queries yields a move and the
legal move list is empty, get_move returns none (the explicit no-move
signal). -/
theorem get_move_none_when_no_legal (gs : GameState) (p q : Cell) (oracle : String)
    (h1 : find_threat_move gs p 4 1 = none)
    (h2 : find_threat_move gs q 4 1 = none)
    (h3 : find_threat_move gs q 3 2 = none)
    (hl : gs.legal_moves = []) :
    get_move gs p q oracle = none := by
  unfold get_move
  rw [h1, h2, h3, hl]
  rfl

/-- Witness for C7: a full 1 x 1 board has no threats and no legal moves, and
get_move returns none. -/
theorem get_move_none_when_no_legal_witness :
    get_move gsC7 "X" "O" "answer" = none :=
  get_move_none_when_no_legal gsC7 "X" "O" "answer"
    (by decide) (by decide) (by decide) (by decide)

/-- Claim C10: when _check_pattern succeeds with empty_needed at least 1 (the
program only ever passes 1 or 2), the window holds an empty cell, so the
seq.index lookup never raises: the error branch of the embedding is
unreachable and the fallible scan agrees with the total one. -/
theorem find_threat_index_safe (gs : GameState) (sym : Cell) (sn en : Nat)
    (hen : 1 ≤ en) :
    find_threat_moveE gs sym sn en = Except.ok (find_threat_move gs sym sn en) := by
  cases hE : find_threat_moveE gs sym sn en with
  | ok o => simp [find_threat_move, hE]
  | error e =>
    cases e
    exact absurd hE (findThreatGo_ne_error gs sym sn en hen (scanEnum gs.board_size))

/-- Witness for C10: on the double-threat board with empty_needed = 1 the
fallible scan returns ok of the total result. -/
theorem find_threat_index_safe_witness :
    find_threat_moveE gsC2 "X" 4 1 = Except.ok (find_threat_move gsC2 "X" 4 1) :=
  find_threat_index_safe gsC2 "X" 4 1 (by decide)

/-- Claim C4: for a move whose target cell is on the board and currently
empty, _score_move restores the board before returning: the state it returns
carries exactly the board it was given. -/
theorem score_move_preserves_board (gs : GameState) (r c : Int) (p q : Cell)
    (hr : r.toNat < gs.board.length)
    (hc : c.toNat < (gs.board.getD r.toNat []).length)
    (hempty : cellAt gs.board r c = ".") :
    (score_move gs (r, c) p q).2.board = gs.board := by
  show setCell (setCell gs.board r c p) r c "." = gs.board
  exact setCell_restore gs.board r c p hr hc hempty

/-- Witness for C4: scoring the empty centre cell of the empty 5 x 5 board
leaves the board unchanged. -/
theorem score_move_preserves_board_witness :
    (2 : Int).toNat < gsC6.board.length ∧
    (2 : Int).toNat < (gsC6.board.getD (2 : Int).toNat []).length ∧
    cellAt gsC6.board 2 2 = "." ∧
    (score_move gsC6 (2, 2) "X" "O").2.board = gsC6.board :=
  ⟨by decide, by decide, by decide,
    score_move_preserves_board gsC6 2 2 "X" "O" (by decide) (by decide) (by decide)⟩

/-- Claim C5: the score computed by _score_move is exactly the sum of the
centrality term, 2 per occupied in-bounds neighbour, and the four independent
threat bonuses 50, 45, 20, 15 evaluated with the own stone placed at the
move. -/
theorem score_move_eq_specScore (gs : GameState) (move : Int × Int) (p q : Cell) :
    (score_move gs move p q).1 = specScore gs move p q := by
  obtain ⟨r, c⟩ := move
  simp only [score_move, specScore, centrality]
  rw [foldl_if_two]
  split_ifs <;> ring

/-- Claim C9: the centrality term is monotone: a candidate whose per-axis
distances to the centre are both no larger than those of another scores at
least as much centrality, and the term is never negative. -/
theorem centrality_monotone (size : Nat) (r1 c1 r2 c2 : Int)
    (hr : |r1 - boardCenter size| ≤ |r2 - boardCenter size|)
    (hc : |c1 - boardCenter size| ≤ |c2 - boardCenter size|) :
    centrality size r2 c2 ≤ centrality size r1 c1 ∧ 0 ≤ centrality size r1 c1 := by
  constructor
  · apply max_le_max (le_refl 0)
    have h1 := sub_le_sub_left hr (boardCenter size)
    have h2 := sub_le_sub_left hc (boardCenter size)
    exact add_le_add h1 h2
  · exact le_max_left 0 _

/-- Witness for C9: on a 15-wide board, the centre (7,7) is at least as
central as the corner (0,0). -/
theorem centrality_monotone_witness :
    centrality 15 0 0 ≤ centrality 15 7 7 ∧ 0 ≤ centrality 15 7 7 :=
  centrality_monotone 15 7 7 0 0 (by decide) (by decide)

/-- Counterexample for C8: _score_move does not fail fast on an occupied
cell.  With O sitting at (1,1) of a 3 x 3 board, scoring (1,1) for X silently
returns the ordinary score 2 and hands back a board whose cell (1,1) has been
reset to empty, erasing the O stone. -/
theorem score_move_occupied_cex :
    cellAt gsC8.board 1 1 = "O" ∧
    (score_move gsC8 (1, 1) "X" "O").1 = 2 ∧
    cellAt (score_move gsC8 (1, 1) "X" "O").2.board 1 1 = "." ∧
    (score_move gsC8 (1, 1) "X" "O").2.board ≠ gsC8.board := by
  refine ⟨by decide, by decide, by decide, ?_⟩
  decide

/-- Claim C8 (amended): _score_move performs no precondition check on the
target cell: invoked on an occupied on-board cell it computes a score anyway
and unconditionally restores the cell to empty, erasing the occupying stone,
so the returned board differs from the one given. -/
theorem score_move_occupied_erases (gs : GameState) (r c : Int) (p q : Cell)
    (hr : r.toNat < gs.board.length)
    (hc : c.toNat < (gs.board.getD r.toNat []).length)
    (hocc : cellAt gs.board r c ≠ ".") :
    (score_move gs (r, c) p q).2.board = setCell gs.board r c "." ∧
    (score_move gs (r, c) p q).2.board ≠ gs.board := by
  have hset : (score_move gs (r, c) p q).2.board = setCell gs.board r c "." := by
    show setCell (setCell gs.board r c p) r c "." = setCell gs.board r c "."
    unfold setCell
    rw [list_getD_set_self _ _ _ _ hr, List.set_set, List.set_set]
  refine ⟨hset, ?_⟩
  rw [hset]
  intro hEq
  apply hocc
  rw [← hEq]
  exact cellAt_setCell_self gs.board r c "." hr hc

/-- Witness for C8 (amended claim): the occupied-cell scenario of the
counterexample satisfies the amended description. -/
theorem score_move_occupied_erases_witness :
    (score_move gsC8 (1, 1) "X" "O").2.board = setCell gsC8.board 1 1 "." ∧
    (score_move gsC8 (1, 1) "X" "O").2.board ≠ gsC8.board :=
  score_move_occupied_erases gsC8 1 1 "X" "O" (by decide) (by decide) (by decide)

/-- Claim C6: when get_move reaches the oracle stage (no threat move, legal
moves exist) and the response text has no substring matching the JSON
pattern, or json.loads fails on the first matched span, or the parsed
coordinates are not among the top-3 scored candidates, get_move returns the
top-scored candidate, the same move as with an oracle response that is never
usable (the empty response), and no failure escapes.  Only the first match
is ever consulted.  The response is restricted to ASCII, the fragment on
which the character classes modelled in isWsChar and isDigitChar coincide
with the Unicode-aware \s and \d of re. -/
theorem get_move_oracle_fallback (gs : GameState) (p q : Cell) (oracle : String)
    (h1 : find_threat_move gs p 4 1 = none)
    (h2 : find_threat_move gs q 4 1 = none)
    (h3 : find_threat_move gs q 3 2 = none)
    (hl : gs.legal_moves ≠ [])
    (_hascii : ∀ ch ∈ oracle.data, ch.toNat ≤ 127)
    (hbad : parseOracle oracle.data = none ∨
      ∃ rc, parseOracle oracle.data = some rc ∧
        ((rc.1 : Int), (rc.2 : Int)) ∉ (topMoves gs p q).map Prod.fst) :
    ∃ t, (topMoves gs p q).head? = some t ∧
      get_move gs p q oracle = some t.1 ∧ get_move gs p q "" = some t.1 := by
  have hie : gs.legal_moves.isEmpty = false := by
    rw [List.isEmpty_eq_false]
    exact hl
  have htop := topMoves_ne_nil gs p q hl
  cases htops : topMoves gs p q with
  | nil => exact absurd htops htop
  | cons t ts =>
    have hempty : get_move gs p q "" = some t.1 := by
      simp only [get_move, h1, h2, h3, hie, Bool.false_eq_true, if_false]
      have hsearch : parseOracle ("" : String).data = none := rfl
      rw [hsearch, htops]
    refine ⟨t, rfl, ?_, hempty⟩
    simp only [get_move, h1, h2, h3, hie, Bool.false_eq_true, if_false]
    rcases hbad with hsp | ⟨rc, hsp, hmem⟩
    · rw [hsp, htops]
    · rw [hsp]
      have hcont : ((topMoves gs p q).map Prod.fst).contains ((rc.1 : Int), (rc.2 : Int)) = false := by
        simp only [List.contains, List.elem_eq_mem]
        exact decide_eq_false hmem
      rw [htops] at hcont
      simp only [htops, hcont, Bool.false_eq_true, if_false]

/-- Witness for C6: on the empty 5 x 5 board with an ASCII oracle response
whose only pattern match carries the leading-zero numeral 05 (matched by the
regex, rejected by json.loads), get_move returns the top-scored candidate,
the same move as for the empty response. -/
theorem get_move_oracle_fallback_witness :
    ∃ t, (topMoves gsC6 "X" "O").head? = some t ∧
      get_move gsC6 "X" "O" "pick \x7b\"row\": 05, \"col\": 3\x7d" = some t.1 ∧
      get_move gsC6 "X" "O" "" = some t.1 :=
  get_move_oracle_fallback gsC6 "X" "O" "pick \x7b\"row\": 05, \"col\": 3\x7d"
    (by decide) (by decide) (by decide) (by decide) (by decide) (Or.inl (by decide))
